import Mathlib

/-!
Verification of the Oak Protocol deployment script (`deploy.py`).

The script is a linear pipeline: prerequisite checks, a build invocation,
a deploy invocation with output text-scanning for the contract address,
and an optional initialize invocation.  We embed it shallowly:

* Python strings are `List Char` (named `PStr`); the string utilities the
  script uses (`str.split(sep)`, `str.split()`, `str.lower`, `in`) are
  defined below with the exact semantics Python gives them.
* Each external `subprocess.run` invocation is modelled by an outcome
  (`ProcOutcome`) supplied by a `World` record: successful exit with
  captured stdout/stderr, `CalledProcessError`, or `FileNotFoundError`.
* Each function of the script returns its result together with the list
  of command lines it invoked (the observable side effects), and a result
  is wrapped in `Exn` to record an uncaught Python exception.
-/

/-- Python strings, as lists of characters. -/
abbrev PStr := List Char

/-- An argv command line passed to `subprocess.run`. -/
abbrev Cmd := List String

/-- Result of a piece of Python code: a value, or an uncaught exception. -/
inductive Exn (α : Type) where
  | ok (a : α)
  | raised
deriving DecidableEq, Repr

/-- Outcome of one external `subprocess.run` invocation: zero exit status with
captured stdout and stderr, `CalledProcessError` (non-zero exit, `check=True`),
or `FileNotFoundError` (executable absent). -/
inductive ProcOutcome where
  | ok (stdout stderr : PStr)
  | failed (stderr : PStr)
  | notFound
deriving DecidableEq, Repr

/-- Whether the invocation exited with status zero. -/
def ProcOutcome.isOk : ProcOutcome → Bool
  | .ok _ _ => true
  | _ => false

/-- The outcomes of the external invocations and the process environment for
one run of the script.  The two `rustup target list --installed` slots model
the two back-to-back invocations in `check_prerequisites`. -/
structure World where
  rustc : ProcOutcome
  stylusVersion : ProcOutcome
  rustupList1 : ProcOutcome
  rustupList2 : ProcOutcome
  rustupAdd : ProcOutcome
  cargoBuild : ProcOutcome
  wasmExists : Bool
  stylusDeploy : ProcOutcome
  stylusCall : ProcOutcome
  privateKey : Option String
  mnemonic : Option String
  ownerAddress : Option String
  treasuryAddress : Option String
deriving DecidableEq, Repr

/-- Python truthiness of an `Optional[str]`: `None` and `""` are falsy. -/
def truthy : Option String → Bool
  | none => false
  | some s => !(s == "")

/-- Python ASCII lowercasing of one character (`str.lower`). -/
def lowerChar (c : Char) : Char :=
  if 'A' ≤ c && c ≤ 'Z' then Char.ofNat (c.toNat + 32) else c

/-- `isPrefixOfC sub l` : `sub` is a prefix of `l`. -/
def isPrefixOfC : PStr → PStr → Bool
  | [], _ => true
  | _ :: _, [] => false
  | a :: as, b :: bs => a == b && isPrefixOfC as bs

/-- The Python substring test `sub in l`. -/
def containsSub (sub : PStr) : PStr → Bool
  | [] => sub.isEmpty
  | c :: rest => isPrefixOfC sub (c :: rest) || containsSub sub rest

/-- Prepend a character to the first piece of a split. -/
def consHead (c : Char) : List PStr → List PStr
  | h :: t => (c :: h) :: t
  | [] => [[c]]

/-- Python `s.split("\n")`. -/
def splitOnNl : PStr → List PStr
  | [] => [[]]
  | c :: rest => if c = '\n' then [] :: splitOnNl rest else consHead c (splitOnNl rest)

/-- Python `s.split("0x")`: split on non-overlapping occurrences of `"0x"`,
left to right, keeping empty pieces. -/
def splitOn0x : PStr → List PStr
  | [] => [[]]
  | [c] => [[c]]
  | '0' :: 'x' :: rest => [] :: splitOn0x rest
  | c :: rest => consHead c (splitOn0x rest)

/-- Python `s.split()` (no separator): split on runs of whitespace,
discarding empty pieces. -/
def splitWsAux : PStr → PStr → List PStr
  | [], acc => if acc.isEmpty then [] else [acc.reverse]
  | c :: rest, acc =>
    if c.isWhitespace then
      if acc.isEmpty then splitWsAux rest [] else acc.reverse :: splitWsAux rest []
    else splitWsAux rest (c :: acc)

/-- Python `s.split()` (no separator). -/
def splitWs (l : PStr) : List PStr := splitWsAux l []

/-- What the deploy-output scan does with one line of output
(`deploy.py` lines 153-161). -/
inductive ScanStep where
  | found (a : PStr)
  | crash
  | skip
deriving DecidableEq, Repr

/-- One iteration of the address-scanning loop of `deploy_contract`:
if the line contains `"deployed"` or `"address"` case-insensitively and
contains `"0x"`, the address is `"0x" + parts[1].split()[0][:40]`;
`parts[1].split()[0]` raises `IndexError` when nothing but whitespace
follows the first `"0x"`. -/
def scanLine (line : PStr) : ScanStep :=
  let low := line.map lowerChar
  if containsSub "deployed".toList low || containsSub "address".toList low then
    if containsSub "0x".toList line then
      match splitOn0x line with
      | _ :: p1 :: _ =>
        match splitWs p1 with
        | [] => .crash
        | t :: _ => .found ('0' :: 'x' :: t.take 40)
      | _ => .skip
    else .skip
  else .skip

/-- The address-scanning loop over the lines of the combined output. -/
def scanLines : List PStr → Exn (Option PStr)
  | [] => .ok none
  | l :: rest =>
    match scanLine l with
    | .found a => .ok (some a)
    | .crash => .raised
    | .skip => scanLines rest

/-- Address extraction of `deploy_contract` from the combined
stdout+stderr text of a successfully exiting deploy command. -/
def extractAddress (output : PStr) : Exn (Option PStr) :=
  scanLines (splitOnNl output)

/-- The `rustc --version` command line. -/
def rustcCmd : Cmd := ["rustc", "--version"]

/-- The `cargo stylus --version` command line. -/
def stylusVersionCmd : Cmd := ["cargo", "stylus", "--version"]

/-- The `rustup target list --installed` command line. -/
def rustupListCmd : Cmd := ["rustup", "target", "list", "--installed"]

/-- The `rustup target add wasm32-unknown-unknown` command line. -/
def rustupAddCmd : Cmd := ["rustup", "target", "add", "wasm32-unknown-unknown"]

/-- The `cargo build --target wasm32-unknown-unknown --release` command line. -/
def cargoBuildCmd : Cmd := ["cargo", "build", "--target", "wasm32-unknown-unknown", "--release"]

/-- `check_prerequisites` (`deploy.py` lines 29-78).  The first two checks
catch both `CalledProcessError` and `FileNotFoundError`; the wasm32-target
block catches only `CalledProcessError`, so a `FileNotFoundError` from
`rustup` escapes as an uncaught exception. -/
def check_prerequisites (w : World) : Exn Bool × List Cmd :=
  match w.rustc with
  | .ok _ _ =>
    match w.stylusVersion with
    | .ok _ _ =>
      match w.rustupList1 with
      | .notFound => (.raised, [rustcCmd, stylusVersionCmd, rustupListCmd])
      | .failed _ => (.ok false, [rustcCmd, stylusVersionCmd, rustupListCmd])
      | .ok _ _ =>
        match w.rustupList2 with
        | .notFound => (.raised, [rustcCmd, stylusVersionCmd, rustupListCmd, rustupListCmd])
        | .failed _ => (.ok false, [rustcCmd, stylusVersionCmd, rustupListCmd, rustupListCmd])
        | .ok out _ =>
          if !(containsSub "wasm32-unknown-unknown".toList out) then
            match w.rustupAdd with
            | .notFound =>
              (.raised, [rustcCmd, stylusVersionCmd, rustupListCmd, rustupListCmd, rustupAddCmd])
            | .failed _ =>
              (.ok false, [rustcCmd, stylusVersionCmd, rustupListCmd, rustupListCmd, rustupAddCmd])
            | .ok _ _ =>
              (.ok true, [rustcCmd, stylusVersionCmd, rustupListCmd, rustupListCmd, rustupAddCmd])
          else (.ok true, [rustcCmd, stylusVersionCmd, rustupListCmd, rustupListCmd])
    | _ => (.ok false, [rustcCmd, stylusVersionCmd])
  | _ => (.ok false, [rustcCmd])

/-- `compile_contract` (`deploy.py` lines 81-106): returns `true` only when
the build command exits zero and the wasm artifact exists at
`target/wasm32-unknown-unknown/release/oak_protocol.wasm`; the `except`
clause catches only `CalledProcessError`. -/
def compile_contract (w : World) : Exn Bool × List Cmd :=
  match w.cargoBuild with
  | .ok _ _ =>
    if w.wasmExists then (.ok true, [cargoBuildCmd]) else (.ok false, [cargoBuildCmd])
  | .failed _ => (.ok false, [cargoBuildCmd])
  | .notFound => (.raised, [cargoBuildCmd])

/-- The credential flags appended by both `deploy_contract` (lines 133-136)
and `initialize_contract` (lines 196-199):
`if private_key: ... elif mnemonic: ...`. -/
def credFlags (private_key mnemonic : Option String) : List String :=
  if truthy private_key then ["--private-key", private_key.getD ""]
  else if truthy mnemonic then ["--mnemonic", mnemonic.getD ""]
  else []

/-- The default RPC endpoint (`deploy.py` line 23). -/
def ARBITRUM_SEPOLIA_RPC : String := "https://sepolia-rollup.arbitrum.io/rpc"

/-- The `cargo stylus deploy ...` command line before the credential flags. -/
def stylusDeployCmd (rpc_url : String) : Cmd :=
  ["cargo", "stylus", "deploy",
   "--wasm-file", "target/wasm32-unknown-unknown/release/oak_protocol.wasm",
   "--network", "sepolia",
   "--rpc-url", rpc_url]

/-- `deploy_contract` (`deploy.py` lines 109-168): with no truthy credential
it returns `None` before building or running any command; otherwise it runs
the deploy command and, on zero exit, scans the concatenated stdout+stderr
for an address.  The `except` clause catches only `CalledProcessError`. -/
def deploy_contract (private_key mnemonic : Option String) (rpc_url : String)
    (w : World) : Exn (Option PStr) × List Cmd :=
  if !truthy private_key && !truthy mnemonic then (.ok none, [])
  else
    let cmd := stylusDeployCmd rpc_url ++ credFlags private_key mnemonic
    match w.stylusDeploy with
    | .ok out err => (extractAddress (out ++ err), [cmd])
    | .failed _ => (.ok none, [cmd])
    | .notFound => (.raised, [cmd])

/-- The `cargo stylus call ...` command line before the credential flags;
the two init arguments are comma-joined (`f"{owner_address},{treasury_address}"`). -/
def stylusCallCmd (contract_address owner_address treasury_address rpc_url : String) : Cmd :=
  ["cargo", "stylus", "call",
   "--address", contract_address,
   "--function", "init",
   "--args", owner_address ++ "," ++ treasury_address,
   "--network", "sepolia",
   "--rpc-url", rpc_url]

/-- `initialize_contract` (`deploy.py` lines 171-214): always builds and runs
the call command (no credential gate); returns `true` exactly on zero exit.
The `except` clause catches only `CalledProcessError`. -/
def initialize_contract (contract_address owner_address treasury_address : String)
    (private_key mnemonic : Option String) (rpc_url : String)
    (w : World) : Exn Bool × List Cmd :=
  let cmd := stylusCallCmd contract_address owner_address treasury_address rpc_url
              ++ credFlags private_key mnemonic
  match w.stylusCall with
  | .ok _ _ => (.ok true, [cmd])
  | .failed _ => (.ok false, [cmd])
  | .notFound => (.raised, [cmd])

/-- `main` (`deploy.py` lines 217-280): exit status (0 on falling off the
end, 1 via `sys.exit(1)`) or an uncaught exception, together with all
commands invoked. -/
def main_flow (w : World) : Exn Nat × List Cmd :=
  let chk := check_prerequisites w
  match chk.1 with
  | .raised => (.raised, chk.2)
  | .ok false => (.ok 1, chk.2)
  | .ok true =>
    let bld := compile_contract w
    match bld.1 with
    | .raised => (.raised, chk.2 ++ bld.2)
    | .ok false => (.ok 1, chk.2 ++ bld.2)
    | .ok true =>
      if !truthy w.privateKey && !truthy w.mnemonic then (.ok 1, chk.2 ++ bld.2)
      else
        let dep := deploy_contract w.privateKey w.mnemonic ARBITRUM_SEPOLIA_RPC w
        match dep.1 with
        | .raised => (.raised, chk.2 ++ bld.2 ++ dep.2)
        | .ok none => (.ok 1, chk.2 ++ bld.2 ++ dep.2)
        | .ok (some addr) =>
          if addr.isEmpty then (.ok 1, chk.2 ++ bld.2 ++ dep.2)
          else if truthy w.ownerAddress && truthy w.treasuryAddress then
            let ini := initialize_contract addr.asString
                        (w.ownerAddress.getD "") (w.treasuryAddress.getD "")
                        w.privateKey w.mnemonic ARBITRUM_SEPOLIA_RPC w
            match ini.1 with
            | .raised => (.raised, chk.2 ++ bld.2 ++ dep.2 ++ ini.2)
            | .ok _ => (.ok 0, chk.2 ++ bld.2 ++ dep.2 ++ ini.2)
          else (.ok 0, chk.2 ++ bld.2 ++ dep.2)

/-- A run in which every external invocation succeeds, the wasm32 target is
already installed, both init addresses are set, and the deploy tool prints
the documented address line. -/
def wAllOk : World :=
  { rustc := .ok [] []
    stylusVersion := .ok "stylus 0.5.0".toList []
    rustupList1 := .ok [] []
    rustupList2 := .ok "wasm32-unknown-unknown\n".toList []
    rustupAdd := .ok [] []
    cargoBuild := .ok [] []
    wasmExists := true
    stylusDeploy := .ok
      "Contract deployed at: 0xABCDEF0123456789ABCDEF0123456789ABCDEF01 (gas used: 500000)\n".toList
      []
    stylusCall := .ok [] []
    privateKey := some "0xkey"
    mnemonic := none
    ownerAddress := some "0xowner"
    treasuryAddress := some "0xtreasury" }

/-- A run identical to `wAllOk` except that `rustc --version` exits non-zero. -/
def wRustcFail : World := { wAllOk with rustc := .failed [] }

/-- A run identical to `wAllOk` except that `cargo stylus --version` exits non-zero. -/
def wStylusFail : World := { wAllOk with stylusVersion := .failed [] }

/-- A run identical to `wAllOk` except that the build exits zero but the
wasm artifact is absent. -/
def wNoWasm : World := { wAllOk with wasmExists := false }

/-- A run identical to `wAllOk` except that the deploy tool prints a line
ending in a bare `0x`. -/
def wBare0x : World :=
  { wAllOk with stylusDeploy := .ok "Contract deployed at: 0x".toList [] }

/-- Any address produced by one step of the scan is `'0' :: 'x' ::` a token
truncated to at most 40 characters. -/
theorem scanLine_found_shape (l a : PStr) (h : scanLine l = .found a) :
    ∃ t, a = '0' :: 'x' :: t ∧ t.length ≤ 40 := by
  simp only [scanLine] at h
  repeat' split at h
  all_goals first
    | (cases h; exact ⟨_, rfl, by simp⟩)
    | exact absurd h (by simp)

/-- Any address produced by the scanning loop is `'0' :: 'x' ::` a token
truncated to at most 40 characters. -/
theorem scanLines_found_shape (ls : List PStr) (a : PStr)
    (h : scanLines ls = .ok (some a)) :
    ∃ t, a = '0' :: 'x' :: t ∧ t.length ≤ 40 := by
  induction ls with
  | nil => exact absurd h (by simp [scanLines])
  | cons l rest ih =>
    unfold scanLines at h
    cases hsl : scanLine l with
    | found b =>
      rw [hsl] at h
      have hb : b = a := by cases h; rfl
      exact hb ▸ scanLine_found_shape l b hsl
    | crash => rw [hsl] at h; exact absurd h (by simp)
    | skip => rw [hsl] at h; exact ih h

/-- The scanning loop ignores a prefix of lines it skips. -/
theorem scanLines_append_skip (pre rest : List PStr)
    (h : ∀ l ∈ pre, scanLine l = .skip) :
    scanLines (pre ++ rest) = scanLines rest := by
  induction pre with
  | nil => rfl
  | cons l pre ih =>
    have hl : scanLine l = .skip := h l (by simp)
    simp only [List.cons_append, scanLines, hl]
    exact ih fun x hx => h x (by simp [hx])

/-- Any address returned by `deploy_contract` is `'0' :: 'x' ::` a token
truncated to at most 40 characters. -/
theorem deploy_some_shape (pk mn : Option String) (rpc : String) (w : World)
    (a : PStr) (h : (deploy_contract pk mn rpc w).1 = .ok (some a)) :
    ∃ t, a = '0' :: 'x' :: t ∧ t.length ≤ 40 := by
  unfold deploy_contract at h
  split at h
  · exact absurd h (by simp)
  · cases hsd : w.stylusDeploy with
    | ok out err =>
      rw [hsd] at h
      exact scanLines_found_shape _ _ h
    | failed e => rw [hsd] at h; exact absurd h (by simp)
    | notFound => rw [hsd] at h; exact absurd h (by simp)

/-- The documented deploy-tool output line of the scenario. -/
def scenarioLine : PStr :=
  "Contract deployed at: 0xABCDEF0123456789ABCDEF0123456789ABCDEF01 (gas used: 500000)".toList

/-- C2: for every call to the deployer where neither a private key nor a
mnemonic is supplied (both are falsy), the deployer returns `None`
immediately and invokes no external process: its command trace is empty. -/
theorem deploy_no_credential (pk mn : Option String) (rpc : String) (w : World)
    (hp : truthy pk = false) (hm : truthy mn = false) :
    deploy_contract pk mn rpc w = (.ok none, []) := by
  simp [deploy_contract, hp, hm]

/-- Witness for C2: the concrete call with both credentials absent. -/
theorem deploy_no_credential_witness :
    deploy_contract none none ARBITRUM_SEPOLIA_RPC wAllOk = (.ok none, []) :=
  deploy_no_credential none none ARBITRUM_SEPOLIA_RPC wAllOk rfl rfl

/-- C3: when the combined deploy-tool output contains the line
`Contract deployed at: 0xABCDEF0123456789ABCDEF0123456789ABCDEF01 (gas used: 500000)`
(and no earlier line triggers the scan), the address extraction returns
exactly `0xABCDEF0123456789ABCDEF0123456789ABCDEF01`, truncating the
trailing ` (gas used: 500000)` text. -/
theorem extract_scenario_address (output : PStr) (pre post : List PStr)
    (h1 : splitOnNl output = pre ++ scenarioLine :: post)
    (h2 : ∀ l ∈ pre, scanLine l = .skip) :
    extractAddress output =
      .ok (some "0xABCDEF0123456789ABCDEF0123456789ABCDEF01".toList) := by
  unfold extractAddress
  rw [h1, scanLines_append_skip pre _ h2]
  have hs : scanLine scenarioLine =
      .found "0xABCDEF0123456789ABCDEF0123456789ABCDEF01".toList := by decide
  simp [scanLines, hs]

/-- Witness for C3: the output consisting of exactly the scenario line. -/
theorem extract_scenario_address_witness :
    extractAddress scenarioLine =
      .ok (some "0xABCDEF0123456789ABCDEF0123456789ABCDEF01".toList) :=
  extract_scenario_address scenarioLine [] [] (by decide) (by simp)

/-- Counterexample for C4: on the output line `Contract deployed at: 0xABC`
the deployer returns the result `0xABC`, which is not `"0x"` followed by
exactly 40 hexadecimal characters (its length is 5, not 42): the code
truncates with `[:40]` but never pads. -/
theorem deploy_result_not_fixed_length :
    extractAddress "Contract deployed at: 0xABC".toList = .ok (some "0xABC".toList) ∧
    ("0xABC".toList).length ≠ 42 := by decide

/-- C4 (amended): every result returned by the deployer is `"0x"` followed
by the first whitespace-delimited token after the first `"0x"` of the
qualifying line, truncated to AT MOST 40 characters; it is not padded and
its characters are not validated to be hexadecimal. -/
theorem deploy_result_shape (pk mn : Option String) (rpc : String) (w : World)
    (a : PStr) (h : (deploy_contract pk mn rpc w).1 = .ok (some a)) :
    ∃ t, a = '0' :: 'x' :: t ∧ t.length ≤ 40 :=
  deploy_some_shape pk mn rpc w a h

/-- Witness for C4 (amended): the concrete all-success run. -/
theorem deploy_result_shape_witness :
    ∃ t, "0xABCDEF0123456789ABCDEF0123456789ABCDEF01".toList = '0' :: 'x' :: t ∧
      t.length ≤ 40 :=
  deploy_result_shape (some "0xkey") none ARBITRUM_SEPOLIA_RPC wAllOk
    "0xABCDEF0123456789ABCDEF0123456789ABCDEF01".toList (by decide)

/-- C5 (code bug): the line scan is NOT total.  On the qualifying output
line `Contract deployed at: 0x` — `"deployed"` and `"0x"` both present but
nothing after `"0x"` — `parts[1].split()[0]` raises an uncaught
`IndexError` instead of returning `None`, both in the extraction and in a
full `deploy_contract` call whose tool prints that line. -/
theorem extract_raises_on_bare_0x :
    extractAddress "Contract deployed at: 0x".toList = .raised ∧
    (deploy_contract (some "0xkey") none ARBITRUM_SEPOLIA_RPC wBare0x).1 = .raised := by
  constructor
  · decide
  · have h : wBare0x.stylusDeploy = .ok "Contract deployed at: 0x".toList [] := by decide
    simp [deploy_contract, truthy, h]
    decide

/-- C6: the builder returns `true` iff the build command exits zero AND the
artifact exists; in particular a zero exit with the artifact absent yields
`false`. -/
theorem compile_true_iff (w : World) :
    ((compile_contract w).1 = .ok true ↔ w.cargoBuild.isOk = true ∧ w.wasmExists = true) ∧
    (w.cargoBuild.isOk = true → w.wasmExists = false → (compile_contract w).1 = .ok false) := by
  cases hcb : w.cargoBuild <;> cases hwe : w.wasmExists <;>
    simp [compile_contract, hcb, hwe, ProcOutcome.isOk]

/-- Witness for C6: build exits zero but the artifact is absent. -/
theorem compile_true_iff_witness : (compile_contract wNoWasm).1 = .ok false :=
  (compile_true_iff wNoWasm).2 (by decide) (by decide)

/-- Every command the prerequisite checker ever runs is one of its four
tool-query/remediation commands. -/
theorem check_trace_subset (w : World) :
    (check_prerequisites w).2 ⊆ [rustcCmd, stylusVersionCmd, rustupListCmd, rustupAddCmd] := by
  unfold check_prerequisites
  repeat' split
  all_goals decide

/-- C7: whenever the prerequisite checker returns `false`, the driver exits
with status 1, its command trace is exactly the trace of the checker, and the
build command was never executed. -/
theorem prereq_fail_stops_before_build (w : World)
    (h : (check_prerequisites w).1 = .ok false) :
    (main_flow w).1 = .ok 1 ∧ (main_flow w).2 = (check_prerequisites w).2 ∧
    cargoBuildCmd ∉ (main_flow w).2 := by
  have hnot : cargoBuildCmd ∉ (check_prerequisites w).2 :=
    fun hc => absurd (check_trace_subset w hc) (by decide)
  refine ⟨by simp [main_flow, h], by simp [main_flow, h], ?_⟩
  simpa [main_flow, h] using hnot

/-- Witness for C7: the run where `rustc --version` fails. -/
theorem prereq_fail_stops_before_build_witness :
    (main_flow wRustcFail).1 = .ok 1 ∧
    (main_flow wRustcFail).2 = (check_prerequisites wRustcFail).2 ∧
    cargoBuildCmd ∉ (main_flow wRustcFail).2 :=
  prereq_fail_stops_before_build wRustcFail (by decide)

/-- C8: when both a (truthy) private key and a mnemonic are supplied, the
deploy command and the initialize command are each invoked exactly once
with `--private-key` appended and nothing else: the `--mnemonic` flag is
never appended (private key takes precedence, same rule in both). -/
theorem private_key_precedence (pk mn a o t : String) (w : World) (h : pk ≠ "") :
    (deploy_contract (some pk) (some mn) ARBITRUM_SEPOLIA_RPC w).2
        = [stylusDeployCmd ARBITRUM_SEPOLIA_RPC ++ ["--private-key", pk]] ∧
    (initialize_contract a o t (some pk) (some mn) ARBITRUM_SEPOLIA_RPC w).2
        = [stylusCallCmd a o t ARBITRUM_SEPOLIA_RPC ++ ["--private-key", pk]] ∧
    "--mnemonic" ∉ stylusDeployCmd ARBITRUM_SEPOLIA_RPC ∧
    "--private-key" ∈ stylusDeployCmd ARBITRUM_SEPOLIA_RPC ++ ["--private-key", pk] := by
  have hcred : credFlags (some pk) (some mn) = ["--private-key", pk] := by
    simp [credFlags, truthy, h]
  refine ⟨?_, ?_, by decide, by simp⟩
  · cases hsd : w.stylusDeploy <;> simp [deploy_contract, truthy, h, hcred, hsd]
  · cases hsc : w.stylusCall <;> simp [initialize_contract, hcred, hsc]

/-- Witness for C8: concrete credentials and addresses. -/
theorem private_key_precedence_witness :
    (deploy_contract (some "0xkey") (some "word list") ARBITRUM_SEPOLIA_RPC wAllOk).2
        = [stylusDeployCmd ARBITRUM_SEPOLIA_RPC ++ ["--private-key", "0xkey"]] ∧
    (initialize_contract "0xc" "0xo" "0xt" (some "0xkey") (some "word list")
        ARBITRUM_SEPOLIA_RPC wAllOk).2
        = [stylusCallCmd "0xc" "0xo" "0xt" ARBITRUM_SEPOLIA_RPC ++ ["--private-key", "0xkey"]] ∧
    "--mnemonic" ∉ stylusDeployCmd ARBITRUM_SEPOLIA_RPC ∧
    "--private-key" ∈ stylusDeployCmd ARBITRUM_SEPOLIA_RPC ++ ["--private-key", "0xkey"] :=
  private_key_precedence "0xkey" "word list" "0xc" "0xo" "0xt" wAllOk (by decide)

/-- Counterexample for C9: in the run where `rustc --version` fails, the
checker reports failure but has NOT performed the deployment-tool or
build-target checks — it returned at the first failure. -/
theorem check_skips_remaining_after_failure :
    (check_prerequisites wRustcFail).1 = .ok false ∧
    stylusVersionCmd ∉ (check_prerequisites wRustcFail).2 ∧
    rustupListCmd ∉ (check_prerequisites wRustcFail).2 ∧
    rustupAddCmd ∉ (check_prerequisites wRustcFail).2 := by decide

/-- C9 (amended): the checker short-circuits: at the first failing category
it returns `false` immediately, having run only the commands up to and
including the failing one. -/
theorem check_short_circuits (w : World) :
    (w.rustc.isOk = false → check_prerequisites w = (.ok false, [rustcCmd])) ∧
    (w.rustc.isOk = true → w.stylusVersion.isOk = false →
      check_prerequisites w = (.ok false, [rustcCmd, stylusVersionCmd])) := by
  cases hr : w.rustc <;> cases hs : w.stylusVersion <;>
    simp [check_prerequisites, ProcOutcome.isOk, hr, hs]

/-- Witness for C9 (amended): the run where `cargo stylus --version` fails. -/
theorem check_short_circuits_witness :
    check_prerequisites wStylusFail = (.ok false, [rustcCmd, stylusVersionCmd]) :=
  (check_short_circuits wStylusFail).2 (by decide) (by decide)

/-- C10: the initializer has no credential gate: called with neither
credential it still invokes the external contract-call command, exactly
once, with no credential flag appended. -/
theorem init_no_credential_gate (a o t rpc : String) (w : World) :
    (initialize_contract a o t none none rpc w).2 = [stylusCallCmd a o t rpc] ∧
    (initialize_contract a o t none none rpc w).2 ≠ [] := by
  cases hsc : w.stylusCall <;> simp [initialize_contract, credFlags, truthy, hsc]

/-- Witness for C10: concrete addresses, default endpoint. -/
theorem init_no_credential_gate_witness :
    (initialize_contract "0xc" "0xo" "0xt" none none ARBITRUM_SEPOLIA_RPC wAllOk).2
        = [stylusCallCmd "0xc" "0xo" "0xt" ARBITRUM_SEPOLIA_RPC] ∧
    (initialize_contract "0xc" "0xo" "0xt" none none ARBITRUM_SEPOLIA_RPC wAllOk).2 ≠ [] :=
  init_no_credential_gate "0xc" "0xo" "0xt" ARBITRUM_SEPOLIA_RPC wAllOk

/-- C1: for every run that ends without an uncaught exception, the process
exit status is zero exactly when the prerequisite check passed, the build
succeeded, some credential was set, and the deploy produced an address —
i.e. zero on full success and on partial success (deployed but not
initialized, whether for missing owner/treasury or a failing initialize
command, neither of which appears on the right-hand side), and non-zero
exactly on prerequisite failure, build failure, missing credential, or
deploy failure. -/
theorem exit_zero_iff_deploy_success (w : World)
    (hne : (main_flow w).1 ≠ .raised) :
    (main_flow w).1 = .ok 0 ↔
      ((check_prerequisites w).1 = .ok true ∧
       (compile_contract w).1 = .ok true ∧
       (truthy w.privateKey || truthy w.mnemonic) = true ∧
       ∃ a, (deploy_contract w.privateKey w.mnemonic ARBITRUM_SEPOLIA_RPC w).1
              = .ok (some a)) := by
  cases hch : (check_prerequisites w).1 with
  | raised => exact absurd (by simp [main_flow, hch]) hne
  | ok b =>
    cases b with
    | false => simp [main_flow, hch]
    | true =>
      cases hcmp : (compile_contract w).1 with
      | raised => exact absurd (by simp [main_flow, hch, hcmp]) hne
      | ok b2 =>
        cases b2 with
        | false => simp [main_flow, hch, hcmp]
        | true =>
          cases hpk : truthy w.privateKey <;> cases hmn : truthy w.mnemonic
          case false.false => simp [main_flow, hch, hcmp, hpk, hmn]
          all_goals
            cases hdep : (deploy_contract w.privateKey w.mnemonic ARBITRUM_SEPOLIA_RPC w).1 with
            | raised => exact absurd (by simp [main_flow, hch, hcmp, hpk, hmn, hdep]) hne
            | ok od =>
              cases od with
              | none => simp [main_flow, hch, hcmp, hpk, hmn, hdep]
              | some a =>
                obtain ⟨t, ha, -⟩ :=
                  deploy_some_shape w.privateKey w.mnemonic ARBITRUM_SEPOLIA_RPC w a hdep
                have hae : a.isEmpty = false := by simp [ha]
                cases hot : (truthy w.ownerAddress && truthy w.treasuryAddress) with
                | false => simp [main_flow, hch, hcmp, hpk, hmn, hdep, hae, hot]
                | true =>
                  cases hini : (initialize_contract a.asString (w.ownerAddress.getD "")
                      (w.treasuryAddress.getD "") w.privateKey w.mnemonic
                      ARBITRUM_SEPOLIA_RPC w).1 with
                  | raised =>
                    exact absurd (by simp [main_flow, hch, hcmp, hpk, hmn, hdep, hae, hot, hini]) hne
                  | ok b3 => simp [main_flow, hch, hcmp, hpk, hmn, hdep, hae, hot, hini]

/-- Witness for C1: the all-success run ends without an exception and the
equivalence holds there. -/
theorem exit_zero_iff_deploy_success_witness :
    (main_flow wAllOk).1 = .ok 0 ↔
      ((check_prerequisites wAllOk).1 = .ok true ∧
       (compile_contract wAllOk).1 = .ok true ∧
       (truthy wAllOk.privateKey || truthy wAllOk.mnemonic) = true ∧
       ∃ a, (deploy_contract wAllOk.privateKey wAllOk.mnemonic ARBITRUM_SEPOLIA_RPC wAllOk).1
              = .ok (some a)) :=
  exit_zero_iff_deploy_success wAllOk (by decide)
